import Mathlib

/-!
Verification of the libIris networking library core (src/libiris.h, src/libiris.cc)
against its natural-language specification.

The C++ code is shallowly embedded: endpoint objects become explicit state
records, the addrinfo linked list becomes a Lean list of nodes, socket
descriptors are integers, and the operating-system calls (socket, bind,
listen, connect, epoll_ctl, send, recv, close) are modelled by explicit
oracles or by a small open-descriptor/datagram-queue state, so that every
control-flow branch of the source is reproduced.
-/

set_option autoImplicit false

namespace LibIris

/-- Sentinel value for an unused socket descriptor (libiris.h, UNUSED = -999). -/
def UNUSED : Int := -999

/-- Maximum UDP datagram payload in bytes (libiris.h, UDPPACKETSIZE = 1400). -/
def UDPPACKETSIZE : Nat := 1400

/-- Endpoint communication protocol (libiris.h, Endpoint::Protocol). -/
inductive Protocol
  | TCP
  | UDP
deriving DecidableEq, Repr

/-- Endpoint role (libiris.h, Endpoint::Type). -/
inductive EType
  | ServerEndpoint
  | ClientEndpoint
  | UnusedType
deriving DecidableEq, Repr

/-- One node of a system addrinfo list: family, socket type, protocol id,
a concrete socket address (abstracted to a numeric identifier) with its
length, and the canonical-name pointer.  The linked list itself is a Lean
list of nodes, the ai_next pointers being the list structure. -/
structure AddrInfo where
  ai_family : Nat := 0
  ai_socktype : Nat := 0
  ai_protocol : Nat := 0
  ai_addrlen : Nat := 0
  ai_addr : Option Nat := none
  ai_canonname : Option Nat := none
deriving DecidableEq, Repr

/-- State of an Endpoint object (libiris.h, class Endpoint): protocol, role,
the malloc-allocated socket descriptor table (none models a NULL pointer),
its recorded length, and the resolved address list (none models NULL). -/
structure EndpointState where
  m_protocol : Protocol
  m_type : EType
  m_sockets : Option (List Int)
  m_sockets_len : Nat
  m_address_info : Option (List AddrInfo)
deriving DecidableEq, Repr

/-- Client constructor (libiris.cc, Client::Client): allocates a one-slot
socket table holding UNUSED, length 1, no address info. -/
def clientNew (proto : Protocol) : EndpointState :=
  { m_protocol := proto
    m_type := EType.ClientEndpoint
    m_sockets := some [UNUSED]
    m_sockets_len := 1
    m_address_info := none }

/-- Client::set_socket (libiris.cc 470-475): if the table is NULL allocate a
one-slot table, then write the descriptor into slot 0. -/
def set_socket (c : EndpointState) (sock : Int) : EndpointState :=
  match c.m_sockets with
  | none => { c with m_sockets := some [sock] }
  | some l => { c with m_sockets := some (l.set 0 sock) }

/-- Client::get_socket (libiris.cc 484-489), translated exactly as written:
if the socket table pointer is NULL the code returns m_sockets[0] (a read
through the null pointer, which yields no value), otherwise it returns the
sentinel UNUSED.  The guard is the one in the source, null-check and all. -/
def get_socket (c : EndpointState) : Option Int :=
  if c.m_sockets.isNone then
    c.m_sockets.bind List.head?
  else
    some UNUSED

/-- Client::set_address_info (libiris.cc 499-503): frees any previously held
address list, then adopts the given one. -/
def set_address_info (c : EndpointState) (info : List AddrInfo) : EndpointState :=
  { c with m_address_info := some info }

/-- Server-side bookkeeping record tagged on every readiness registration
(libiris.h, struct Server::address_storage): descriptor, captured peer
address length, and the captured peer address buffer (none models NULL). -/
structure AddressStorage where
  fd : Int
  size : Nat
  addr : Option Nat
deriving DecidableEq, Repr

/-- State of a Server object as far as the readiness loop is concerned:
protocol, the listening-socket table, and the set of descriptors currently
registered with the epoll facility (the readiness facility). -/
structure ServerState where
  m_protocol : Protocol
  m_sockets : List Int
  epollSet : List Int
deriving DecidableEq, Repr

/-- The branch of Server::get_client (libiris.cc 903-930) taken when a ready
event has the readable flag set and its descriptor does not match any
listening socket: the event's tagged address_storage record rec is read,
the out-parameter client gets its socket (set_socket rec.fd) and a freshly
built addrinfo node carrying the record's captured address and length
(set_address_info), then the code calls
epoll_ctl(m_epfd, EPOLL_CTL_DEL, client->get_socket(), &ev) — the
descriptor it removes from the epoll set is whatever get_socket returns —
and returns 0.  The result is none only if get_socket yields no value
(null table), which is the source's null-pointer read. -/
def get_client_ready_tcp (srv : ServerState) (client : EndpointState)
    (rec : AddressStorage) : Option (Int × EndpointState × ServerState) :=
  let client1 := set_socket client rec.fd
  let node : AddrInfo :=
    { ai_addr := rec.addr, ai_addrlen := rec.size, ai_canonname := none }
  let client2 := set_address_info client1 [node]
  (get_socket client2).map fun gs =>
    (0, client2, { srv with epollSet := srv.epollSet.erase gs })

/-- Claim C1 (code bug, evaluation at the failing input): a TCP server with
listening socket 4 and epoll set {4, 7} handles a readable event tagged
with the record of accepted descriptor 7 (peer address 42, length 16).
The out-parameter client does get socket 7 and the peer address, and the
call returns success, but the epoll set is unchanged — still containing 7 —
because the deregistration is performed on get_socket's result, which is
UNUSED (-999) due to the inverted null-check in Client::get_socket, so the
claim's "deregisters exactly that descriptor" fails on the code. -/
theorem c1_ready_event_eval :
    get_client_ready_tcp
        { m_protocol := Protocol.TCP, m_sockets := [4], epollSet := [4, 7] }
        (clientNew Protocol.TCP)
        { fd := 7, size := 16, addr := some 42 }
      = some (0,
          { m_protocol := Protocol.TCP
            m_type := EType.ClientEndpoint
            m_sockets := some [7]
            m_sockets_len := 1
            m_address_info := some [{ ai_addr := some 42, ai_addrlen := 16, ai_canonname := none }] },
          { m_protocol := Protocol.TCP, m_sockets := [4], epollSet := [4, 7] })
    ∧ (7 : Int) ∈ ([4, 7] : List Int) := by
  constructor
  · rfl
  · simp

/-- C-string view of a byte buffer: the bytes before the first NUL. -/
def cString (l : List Nat) : List Nat :=
  l.takeWhile fun b => b ≠ 0

/-- Whether C strstr(haystack, needle) returns a non-null pointer: both
arguments are read as C strings (up to their first NUL); an empty needle
matches immediately, otherwise the needle string must occur inside the
haystack string. -/
def strstrFound (haystack needle : List Nat) : Bool :=
  decide (cString needle <:+: cString haystack)

/-- The TCP branch of Endpoint::receive_data (libiris.cc 268-282).  The
sequence of recv return values is the stream argument: none models a recv
error (-1), some [] a zero-length read (peer closed), some chunk a read
delivering those bytes.  Following the source, after a successful read the
running total grows by the chunk length and the loop breaks if
strstr(data_ptr, NUL-literal) is non-null, where the second argument is the
C literal whose bytes are [0, 0] — an empty C string.  The loop runs while
total < data_len; an exhausted stream models a recv that never happens. -/
def tcpRecvLoop (data_len : Nat) : List (Option (List Nat)) → Nat → Int
  | [], total => Int.ofNat total
  | o :: rest, total =>
    if total < data_len then
      match o with
      | none => -1
      | some [] => Int.ofNat total
      | some chunk =>
        if strstrFound chunk [0, 0] then Int.ofNat (total + chunk.length)
        else tcpRecvLoop data_len rest (total + chunk.length)
    else Int.ofNat total

/-- Endpoint::receive_data for a TCP endpoint, as a function of the stream
of recv outcomes and the requested length. -/
def receive_data_tcp (stream : List (Option (List Nat))) (data_len : Nat) : Int :=
  tcpRecvLoop data_len stream 0

/-- Claim C2 (code bug, evaluation at the failing input): requesting 10
bytes when recv first delivers the 3 NUL-free bytes [72, 105, 33] and would
then deliver [1, 2, 3, 4, 5, 6, 7] returns 3 — the loop stops after the
first read even though fewer than 10 bytes arrived, no zero-length read
occurred and no NUL byte appeared, because the stop test is
strstr(data_ptr, NUL-literal), whose needle is the empty C string and which
therefore always matches. -/
theorem c2_receive_stops_after_first_read_eval :
    receive_data_tcp [some [72, 105, 33], some [1, 2, 3, 4, 5, 6, 7]] 10 = 3
    ∧ strstrFound [72, 105, 33] [0, 0] = true
    ∧ (0 : Nat) ∉ [72, 105, 33] := by
  refine ⟨rfl, rfl, by decide⟩

/-- The UDP branch of Endpoint::send_data (libiris.cc 193-226).  With
packets = data_len / UDPPACKETSIZE and packet_left = data_len mod
UDPPACKETSIZE, the source iterates i from 0 to packets inclusive; when
packets < 1 the single call carries the whole payload, otherwise calls with
i < packets carry UDPPACKETSIZE bytes and the final call carries
packet_left bytes.  sendOk tells whether the i-th sendto succeeds (success
delivers the full unit); a failed unit aborts with -1.  The result pairs
the returned value with the list of attempted unit sizes, and the third
numeric argument counts the remaining loop iterations. -/
def udpSendLoop (sendOk : Nat → Bool) (n packets packet_left : Nat) :
    Nat → Nat → Nat → Int × List Nat
  | _, total, 0 => (Int.ofNat total, [])
  | i, total, rem + 1 =>
    let size := if packets < 1 then n
      else if i < packets then UDPPACKETSIZE else packet_left
    if sendOk i then
      let r := udpSendLoop sendOk n packets packet_left (i + 1) (total + size) rem
      (r.1, size :: r.2)
    else (-1, [size])

/-- Endpoint::send_data for a UDP endpoint: runs the fragmentation loop for
packets + 1 iterations starting at i = 0 with total 0. -/
def send_data_udp (sendOk : Nat → Bool) (n : Nat) : Int × List Nat :=
  udpSendLoop sendOk n (n / UDPPACKETSIZE) (n % UDPPACKETSIZE) 0 0
    (n / UDPPACKETSIZE + 1)

/-- The list of unit sizes the fragmentation loop attempts from index i for
rem further iterations. -/
def udpSizesFrom (n packets packet_left : Nat) : Nat → Nat → List Nat
  | _, 0 => []
  | i, rem + 1 =>
    (if packets < 1 then n
      else if i < packets then UDPPACKETSIZE else packet_left)
      :: udpSizesFrom n packets packet_left (i + 1) rem

lemma udpSizesFrom_unfold (n packets packet_left i rem : Nat) :
    udpSizesFrom n packets packet_left i (rem + 1)
      = (if packets < 1 then n
          else if i < packets then UDPPACKETSIZE else packet_left)
          :: udpSizesFrom n packets packet_left (i + 1) rem := rfl

lemma udpSendLoop_unfold (sendOk : Nat → Bool) (n packets packet_left i total rem : Nat) :
    udpSendLoop sendOk n packets packet_left i total (rem + 1)
      = (if sendOk i then
          ((udpSendLoop sendOk n packets packet_left (i + 1)
              (total + (if packets < 1 then n
                else if i < packets then UDPPACKETSIZE else packet_left)) rem).1,
            (if packets < 1 then n
              else if i < packets then UDPPACKETSIZE else packet_left)
              :: (udpSendLoop sendOk n packets packet_left (i + 1)
                  (total + (if packets < 1 then n
                    else if i < packets then UDPPACKETSIZE else packet_left)) rem).2)
        else (-1, [if packets < 1 then n
          else if i < packets then UDPPACKETSIZE else packet_left])) := rfl

lemma udpSendLoop_all_ok (n packets packet_left : Nat) :
    ∀ rem i total,
      udpSendLoop (fun _ => true) n packets packet_left i total rem
        = (Int.ofNat (total + (udpSizesFrom n packets packet_left i rem).sum),
           udpSizesFrom n packets packet_left i rem) := by
  intro rem
  induction rem with
  | zero => intro i total; simp [udpSendLoop, udpSizesFrom]
  | succ r ih =>
    intro i total
    rw [udpSendLoop_unfold, udpSizesFrom_unfold, if_pos rfl, ih]
    rw [List.sum_cons]
    refine Prod.ext ?_ rfl
    simp [Nat.add_assoc]

lemma udpSendLoop_first_fail (sendOk : Nat → Bool) (n packets packet_left : Nat) :
    ∀ k rem i total, k < rem →
      (∀ j, j < k → sendOk (i + j) = true) → sendOk (i + k) = false →
      udpSendLoop sendOk n packets packet_left i total rem
        = (-1, udpSizesFrom n packets packet_left i (k + 1)) := by
  intro k
  induction k with
  | zero =>
    intro rem i total hrem _ hfail
    cases rem with
    | zero => omega
    | succ r =>
      simp only [Nat.add_zero] at hfail
      rw [udpSendLoop_unfold, if_neg (by simp [hfail])]
      rfl
  | succ k ih =>
    intro rem i total hrem hpre hfail
    cases rem with
    | zero => omega
    | succ r =>
      have hok : sendOk i = true := by simpa using hpre 0 (Nat.succ_pos k)
      have hrec := ih r (i + 1) (total +
          (if packets < 1 then n
            else if i < packets then UDPPACKETSIZE else packet_left))
        (by omega)
        (fun j hj => by
          have he : i + 1 + j = i + (j + 1) := by omega
          rw [he]; exact hpre (j + 1) (by omega))
        (by
          have he : i + 1 + k = i + (k + 1) := by omega
          rw [he]; exact hfail)
      rw [udpSendLoop_unfold, if_pos hok, hrec]
      rfl

lemma udpSizesFrom_take (n packets packet_left : Nat) :
    ∀ r1 r2 i, r1 ≤ r2 →
      udpSizesFrom n packets packet_left i r1
        = (udpSizesFrom n packets packet_left i r2).take r1 := by
  intro r1
  induction r1 with
  | zero => intro r2 i _; simp [udpSizesFrom]
  | succ r ih =>
    intro r2 i h
    obtain ⟨s, rfl⟩ := Nat.exists_eq_add_of_le h
    have he : r + 1 + s = (r + s) + 1 := by omega
    rw [he, udpSizesFrom_unfold, udpSizesFrom_unfold, List.take_succ_cons]
    rw [ih (r + s) (i + 1) (Nat.le_add_right r s)]

lemma udpSizesFrom_full (n : Nat) :
    udpSizesFrom n (n / UDPPACKETSIZE) (n % UDPPACKETSIZE) 0
        (n / UDPPACKETSIZE + 1)
      = List.replicate (n / UDPPACKETSIZE) UDPPACKETSIZE ++ [n % UDPPACKETSIZE] := by
  by_cases hp : n / UDPPACKETSIZE < 1
  · have hp0 : n / UDPPACKETSIZE = 0 := Nat.lt_one_iff.mp hp
    have hn : n % UDPPACKETSIZE = n := by
      simp only [UDPPACKETSIZE] at hp0 ⊢
      omega
    rw [hp0]
    rw [udpSizesFrom_unfold]
    simp [udpSizesFrom, hp0, hn]
  · have key : ∀ (p left : Nat), ¬ p < 1 → ∀ rem i, 0 < rem → i + rem = p + 1 →
        udpSizesFrom n p left i rem
          = List.replicate (rem - 1) UDPPACKETSIZE ++ [left] := by
      intro p left hp1 rem
      induction rem with
      | zero => intro i h0 _; omega
      | succ r ihr =>
        intro i _ hsum
        cases r with
        | zero =>
          have hi : i = p := by omega
          rw [udpSizesFrom_unfold]
          simp [udpSizesFrom, hp1, hi]
        | succ s =>
          have hlt : i < p := by omega
          have hrec := ihr (i + 1) (Nat.succ_pos s) (by omega)
          rw [udpSizesFrom_unfold, hrec]
          simp [hp1, hlt, List.replicate_succ]
    have := key (n / UDPPACKETSIZE) (n % UDPPACKETSIZE) hp
      (n / UDPPACKETSIZE + 1) 0 (Nat.succ_pos _) (Nat.zero_add _)
    simpa using this

/-- Claim C3 counterexample: for the payload size n = 1400 the code performs
2 underlying datagram send calls, of sizes 1400 and 0, whereas
ceil(1400 / 1400) = 1, so the claim that exactly ceil(n / 1400) calls are
made with the last carrying a full 1400 bytes fails at n = 1400. -/
theorem c3_udp_fragmentation_counterexample :
    (send_data_udp (fun _ => true) 1400).2 = [1400, 0]
    ∧ ((send_data_udp (fun _ => true) 1400).2).length = 2
    ∧ (1400 + 1400 - 1) / 1400 = 1 := by
  refine ⟨rfl, rfl, by norm_num⟩

/-- Claim C3 as amended: a UDP send of n bytes performs exactly
n / 1400 + 1 underlying datagram send calls — which equals ceil(n / 1400)
when 1400 does not divide n, and ceil(n / 1400) + 1 when it does (including
a single zero-byte call for n = 0) — the non-final calls each carrying 1400
bytes and the final call carrying n mod 1400 bytes; when every unit
succeeds the call returns n, and a send failure on unit k (the first
failing unit) aborts the loop right there with the send error -1. -/
theorem c3_udp_fragmentation_amended (n k : Nat) (sendOk : Nat → Bool)
    (hk : k < n / UDPPACKETSIZE + 1)
    (hpre : ∀ j, j < k → sendOk j = true)
    (hfail : sendOk k = false) :
    (send_data_udp (fun _ => true) n).2
        = List.replicate (n / UDPPACKETSIZE) UDPPACKETSIZE ++ [n % UDPPACKETSIZE]
    ∧ (send_data_udp (fun _ => true) n).1 = Int.ofNat n
    ∧ (send_data_udp sendOk n).1 = -1
    ∧ (send_data_udp sendOk n).2
        = (List.replicate (n / UDPPACKETSIZE) UDPPACKETSIZE
            ++ [n % UDPPACKETSIZE]).take (k + 1) := by
  have hall := udpSendLoop_all_ok n (n / UDPPACKETSIZE) (n % UDPPACKETSIZE)
    (n / UDPPACKETSIZE + 1) 0 0
  have hfull := udpSizesFrom_full n
  have hsum : (List.replicate (n / UDPPACKETSIZE) UDPPACKETSIZE
      ++ [n % UDPPACKETSIZE]).sum = n := by
    simp only [List.sum_append, List.sum_replicate, List.sum_cons,
      List.sum_nil, smul_eq_mul, UDPPACKETSIZE]
    omega
  have hfailEq := udpSendLoop_first_fail sendOk n (n / UDPPACKETSIZE)
    (n % UDPPACKETSIZE) k (n / UDPPACKETSIZE + 1) 0 0 hk
    (fun j hj => by simpa using hpre j hj) (by simpa using hfail)
  refine ⟨?_, ?_, ?_, ?_⟩
  · simp [send_data_udp, hall, hfull]
  · simp [send_data_udp, hall, hfull, hsum]
  · simp [send_data_udp, hfailEq]
  · rw [send_data_udp, hfailEq, ← hfull]
    exact udpSizesFrom_take n (n / UDPPACKETSIZE) (n % UDPPACKETSIZE)
      (k + 1) (n / UDPPACKETSIZE + 1) 0 hk

/-- Witness for C3 as amended, at n = 3000 with the second unit failing:
3000 / 1400 = 2 full units of 1400 bytes plus a final 200-byte unit, the
all-success run returning 3000, and the run whose unit 1 fails aborting
with -1 after attempting [1400, 1400]. -/
theorem c3_udp_fragmentation_amended_witness :
    (send_data_udp (fun _ => true) 3000).2
        = List.replicate (3000 / UDPPACKETSIZE) UDPPACKETSIZE
            ++ [3000 % UDPPACKETSIZE]
    ∧ (send_data_udp (fun _ => true) 3000).1 = Int.ofNat 3000
    ∧ (send_data_udp (fun j => decide (j = 0)) 3000).1 = -1
    ∧ (send_data_udp (fun j => decide (j = 0)) 3000).2
        = (List.replicate (3000 / UDPPACKETSIZE) UDPPACKETSIZE
            ++ [3000 % UDPPACKETSIZE]).take (1 + 1) :=
  c3_udp_fragmentation_amended 3000 1 (fun j => decide (j = 0))
    (by norm_num [UDPPACKETSIZE])
    (fun j hj => by
      have : j = 0 := by omega
      subst this; rfl)
    (by decide)

/-- Outcome of Endpoint::cleanup: the endpoint state afterwards, the set of
still-open OS descriptors, the returned code, the list of descriptors on
which close was attempted (in order), and how many times the resolved
address list was released during the call. -/
structure CleanupOut where
  state : EndpointState
  os : List Int
  ret : Int
  closeCalls : List Int
  addrFrees : Nat
deriving DecidableEq, Repr

/-- The close loop of Endpoint::cleanup (libiris.cc 349-354): for each table
entry that is >= 0, call close on it, overwriting the single result
variable with that close's return value; entries < 0 are skipped and leave
result untouched.  close succeeds (returns 0) exactly when the descriptor
is currently open, and removes it from the open set; closing a non-open
descriptor fails with -1.  Returns the open set, the final value of result
and the descriptors on which close was attempted. -/
def closeFold : List Int → List Int → Int → List Int × Int × List Int
  | [], os, result => (os, result, [])
  | fd :: rest, os, result =>
    if 0 ≤ fd then
      let r : Int := if fd ∈ os then 0 else -1
      let os1 := if fd ∈ os then os.erase fd else os
      let t := closeFold rest os1 r
      (t.1, t.2.1, fd :: t.2.2)
    else
      closeFold rest os result

/-- Endpoint::cleanup (libiris.cc 343-365): for TCP, attempt to close every
table entry that is >= 0; the socket table itself is neither freed, emptied
nor length-reset.  Then the resolved address list is released if present
and the field set to null.  The local variable result is uninitialized; the
garbage argument is the indeterminate value it holds on paths where no
close is performed.  The return is 1 when the final result is negative and
0 otherwise. -/
def cleanup (s : EndpointState) (os : List Int) (garbage : Int) : CleanupOut :=
  let t := if s.m_protocol = Protocol.TCP then
      match s.m_sockets with
      | some l => closeFold l os garbage
      | none => (os, garbage, [])
    else (os, garbage, [])
  { state := { s with m_address_info := none }
    os := t.1
    ret := if t.2.1 < 0 then 1 else 0
    closeCalls := t.2.2
    addrFrees := if s.m_address_info.isSome then 1 else 0 }

/-- Client::detach (libiris.cc 588-590): calls this->cleanup().  The source
has no return statement; the model propagates cleanup's result, which is
what the generated code hands back in practice. -/
def detach (s : EndpointState) (os : List Int) (garbage : Int) : CleanupOut :=
  cleanup s os garbage

lemma closeFold_calls (l : List Int) :
    ∀ (os : List Int) (result : Int),
      (closeFold l os result).2.2 = l.filter (fun fd => decide (0 ≤ fd)) := by
  induction l with
  | nil => intro os result; simp [closeFold]
  | cons fd rest ih =>
    intro os result
    by_cases h : 0 ≤ fd
    · simp [closeFold, h, ih]
    · simp [closeFold, h, ih]

/-- A TCP client endpoint state as left by a successful attach: a one-slot
socket table holding the connected descriptor fd and a resolved address
list whose surviving head carries addr. -/
def attachedTCP (fd : Int) (addr : Nat) : EndpointState :=
  { m_protocol := Protocol.TCP
    m_type := EType.ClientEndpoint
    m_sockets := some [fd]
    m_sockets_len := 1
    m_address_info := some [{ ai_addr := some addr }] }

/-- Claim C7 counterexample: a TCP endpoint owning socket 5 (open) and one
resolved address.  After cleanup the socket table is still some [5] with
length 1 — not empty or absent — and running cleanup a second time attempts
close(5) again, a second release of the same descriptor; only the address
list is actually gone. -/
theorem c7_cleanup_counterexample :
    (cleanup (attachedTCP 5 42) [5] 0).state.m_sockets = some [5]
    ∧ (cleanup (attachedTCP 5 42) [5] 0).state.m_sockets_len = 1
    ∧ (cleanup (cleanup (attachedTCP 5 42) [5] 0).state [] 0).closeCalls = [5]
    ∧ (cleanup (attachedTCP 5 42) [5] 0).state.m_address_info = none := by
  refine ⟨rfl, rfl, rfl, rfl⟩

/-- Claim C7 as amended: after cleanup has run, the resolved-address
sequence is absent and a second cleanup does not release it again; the
socket table, however, is neither emptied nor released — it keeps its
pointer, contents and recorded length — and a second cleanup re-attempts
close on exactly the same descriptors as the first. -/
theorem c7_cleanup_amended (s : EndpointState) (os os2 : List Int) (g g2 : Int) :
    (cleanup s os g).state.m_address_info = none
    ∧ (cleanup s os g).state.m_sockets = s.m_sockets
    ∧ (cleanup s os g).state.m_sockets_len = s.m_sockets_len
    ∧ (cleanup (cleanup s os g).state os2 g2).addrFrees = 0
    ∧ (cleanup (cleanup s os g).state os2 g2).closeCalls
        = (cleanup s os g).closeCalls := by
  refine ⟨rfl, rfl, rfl, by simp [cleanup], ?_⟩
  by_cases hp : s.m_protocol = Protocol.TCP
  · cases hs : s.m_sockets with
    | none => simp [cleanup, hp, hs]
    | some l => simp [cleanup, hp, hs, closeFold_calls]
  · simp [cleanup, hp]

/-- Claim C8 counterexample: a TCP client holding attached socket 5 (open).
The first detach succeeds (returns 0, closing 5), but the second detach in
a row is not a no-op success: it attempts close(5) again and returns 1,
because cleanup left the socket table holding descriptor 5 and the repeated
close fails. -/
theorem c8_detach_counterexample :
    (detach (attachedTCP 5 42) [5] 0).ret = 0
    ∧ (detach (detach (attachedTCP 5 42) [5] 0).state
        (detach (attachedTCP 5 42) [5] 0).os 0).ret = 1
    ∧ (detach (detach (attachedTCP 5 42) [5] 0).state
        (detach (attachedTCP 5 42) [5] 0).os 0).closeCalls = [5] := by
  refine ⟨rfl, rfl, rfl⟩

/-- Claim C8 as amended: calling detach twice in a row does not crash, but
the second call is not a no-op success — cleanup leaves the socket table
unchanged, so the second detach re-attempts close on the same descriptor
and reports 1 when that close fails; detach on a never-attached client
performs no close call, yet its reported result is the sign test of
cleanup's uninitialized result variable rather than a guaranteed 0. -/
theorem c8_detach_amended (fd g g2 g3 : Int) (addr : Nat) (os3 : List Int)
    (hfd : 0 ≤ fd) :
    (detach (attachedTCP fd addr) [fd] g).ret = 0
    ∧ (detach (attachedTCP fd addr) [fd] g).closeCalls = [fd]
    ∧ (detach (detach (attachedTCP fd addr) [fd] g).state
        (detach (attachedTCP fd addr) [fd] g).os g2).ret = 1
    ∧ (detach (detach (attachedTCP fd addr) [fd] g).state
        (detach (attachedTCP fd addr) [fd] g).os g2).closeCalls = [fd]
    ∧ (detach (clientNew Protocol.TCP) os3 g3).closeCalls = []
    ∧ (detach (clientNew Protocol.TCP) os3 g3).ret = (if g3 < 0 then 1 else 0) := by
  have hun : ¬ (0 : Int) ≤ UNUSED := by decide
  refine ⟨?_, ?_, ?_, ?_, ?_, ?_⟩
  · simp [detach, cleanup, closeFold, attachedTCP, hfd]
  · simp [detach, cleanup, closeFold, attachedTCP, hfd]
  · simp [detach, cleanup, closeFold, attachedTCP, hfd]
  · simp [detach, cleanup, closeFold, attachedTCP, hfd]
  · simp [detach, cleanup, closeFold, clientNew, hun]
  · simp [detach, cleanup, closeFold, clientNew, hun]

/-- Witness for C8 as amended at descriptor 5 with garbage values 7, -3 and
-3: the first detach returns 0 closing [5], the second returns 1 attempting
[5] again, and the never-attached client performs no close and reports the
sign of the garbage value. -/
theorem c8_detach_amended_witness :
    (detach (attachedTCP 5 42) [5] 7).ret = 0
    ∧ (detach (attachedTCP 5 42) [5] 7).closeCalls = [5]
    ∧ (detach (detach (attachedTCP 5 42) [5] 7).state
        (detach (attachedTCP 5 42) [5] 7).os (-3)).ret = 1
    ∧ (detach (detach (attachedTCP 5 42) [5] 7).state
        (detach (attachedTCP 5 42) [5] 7).os (-3)).closeCalls = [5]
    ∧ (detach (clientNew Protocol.TCP) [] (-3)).closeCalls = []
    ∧ (detach (clientNew Protocol.TCP) [] (-3)).ret = (if (-3 : Int) < 0 then 1 else 0) :=
  c8_detach_amended 5 7 (-3) (-3) 42 [] (by decide)

/-- Outcome of Client::attach: returned code, the resolved address list
left in the client (none models NULL), the value left in m_sockets[0], and
a trace of the effects — whether name resolution was invoked and which
candidates had a socket creation attempted. -/
structure AttachOut where
  ret : Int
  m_address_info : Option (List AddrInfo)
  socket0 : Int
  resolutionCalled : Bool
  socketCalls : List AddrInfo
deriving DecidableEq, Repr

/-- The candidate iteration of Client::attach (libiris.cc 546-568).
socketRes gives the descriptor the socket call yields for a candidate
(negative means failure), connectOk whether a TCP connect on it succeeds.
A candidate whose socket creation fails is deleted (deleteGAINode) and
iteration continues; under TCP a candidate whose connect fails has its
socket closed, is deleted, and iteration continues; otherwise the candidate
wins and iteration breaks.  cur is the current content of m_sockets[0];
the result is (winner, remaining list = the head after deletions, final
m_sockets[0], candidates attempted). -/
def attachLoop (proto : Protocol) (socketRes : AddrInfo → Int)
    (connectOk : AddrInfo → Bool) :
    List AddrInfo → Int → Option AddrInfo × List AddrInfo × Int × List AddrInfo
  | [], cur => (none, [], cur, [])
  | c :: rest, cur =>
    let fd := socketRes c
    if fd < 0 then
      let t := attachLoop proto socketRes connectOk rest fd
      (t.1, t.2.1, t.2.2.1, c :: t.2.2.2)
    else if proto = Protocol.TCP then
      if connectOk c then (some c, c :: rest, fd, [c])
      else
        let t := attachLoop proto socketRes connectOk rest fd
        (t.1, t.2.1, t.2.2.1, c :: t.2.2.2)
    else (some c, c :: rest, fd, [c])

/-- Client::attach (libiris.cc 516-580).  host and service are null when
none (their text content is abstracted to a number); resolveOk tells
whether getaddrinfo succeeds, in which case resolved is the candidate list
it produces.  Null host or service fail before any resolution or socket
call; a resolution failure fails after resolution alone; otherwise the
candidate loop runs and on total failure the remaining resolution state is
released (it is already empty, every node having been deleted) and 1 is
returned. -/
def client_attach (proto : Protocol) (host service : Option Nat)
    (resolveOk : Bool) (resolved : List AddrInfo)
    (socketRes : AddrInfo → Int) (connectOk : AddrInfo → Bool) : AttachOut :=
  if host.isNone then
    { ret := 1, m_address_info := none, socket0 := UNUSED
      resolutionCalled := false, socketCalls := [] }
  else if service.isNone then
    { ret := 1, m_address_info := none, socket0 := UNUSED
      resolutionCalled := false, socketCalls := [] }
  else if !resolveOk then
    { ret := 1, m_address_info := none, socket0 := UNUSED
      resolutionCalled := true, socketCalls := [] }
  else
    let t := attachLoop proto socketRes connectOk resolved UNUSED
    match t.1 with
    | some _ =>
      { ret := 0, m_address_info := some t.2.1, socket0 := t.2.2.1
        resolutionCalled := true, socketCalls := t.2.2.2 }
    | none =>
      { ret := 1, m_address_info := none, socket0 := t.2.2.1
        resolutionCalled := true, socketCalls := t.2.2.2 }

/-- The condition under which the attach loop skips (deletes) a candidate:
its socket creation fails, or the protocol is TCP and its connect fails. -/
def attachSkips (proto : Protocol) (socketRes : AddrInfo → Int)
    (connectOk : AddrInfo → Bool) : AddrInfo → Bool :=
  fun c => decide (socketRes c < 0)
    || (decide (proto = Protocol.TCP) && !(connectOk c))

lemma attachLoop_spec (proto : Protocol) (socketRes : AddrInfo → Int)
    (connectOk : AddrInfo → Bool) :
    ∀ (l : List AddrInfo) (cur : Int),
      (attachLoop proto socketRes connectOk l cur).2.2.2
          = l.takeWhile (attachSkips proto socketRes connectOk)
            ++ (l.dropWhile (attachSkips proto socketRes connectOk)).take 1
      ∧ (l.dropWhile (attachSkips proto socketRes connectOk) = [] →
          (attachLoop proto socketRes connectOk l cur).1 = none
          ∧ (attachLoop proto socketRes connectOk l cur).2.1 = [])
      ∧ (∀ c t, l.dropWhile (attachSkips proto socketRes connectOk) = c :: t →
          (attachLoop proto socketRes connectOk l cur).1 = some c
          ∧ (attachLoop proto socketRes connectOk l cur).2.1 = c :: t
          ∧ (attachLoop proto socketRes connectOk l cur).2.2.1 = socketRes c) := by
  intro l
  induction l with
  | nil =>
    intro cur
    refine ⟨rfl, fun _ => ⟨rfl, rfl⟩, fun c t h => by simp at h⟩
  | cons c rest ih =>
    intro cur
    by_cases hskip : attachSkips proto socketRes connectOk c = true
    · have hloop : attachLoop proto socketRes connectOk (c :: rest) cur
          = ((attachLoop proto socketRes connectOk rest (socketRes c)).1,
             (attachLoop proto socketRes connectOk rest (socketRes c)).2.1,
             (attachLoop proto socketRes connectOk rest (socketRes c)).2.2.1,
             c :: (attachLoop proto socketRes connectOk rest (socketRes c)).2.2.2) := by
        simp only [attachSkips, Bool.or_eq_true, Bool.and_eq_true,
          decide_eq_true_eq, Bool.not_eq_true'] at hskip
        rcases hskip with hfd | ⟨hproto, hconn⟩
        · simp [attachLoop, hfd]
        · by_cases hfd : socketRes c < 0
          · simp [attachLoop, hfd]
          · simp [attachLoop, hfd, hproto, hconn]
      rw [List.takeWhile_cons_of_pos hskip, List.dropWhile_cons_of_pos hskip, hloop]
      obtain ⟨ih1, ih2, ih3⟩ := ih (socketRes c)
      refine ⟨by simpa using ih1, fun h => ?_, fun d t h => ?_⟩
      · obtain ⟨a, b⟩ := ih2 h
        exact ⟨a, b⟩
      · obtain ⟨a, b, d2⟩ := ih3 d t h
        exact ⟨a, b, d2⟩
    · have hskipf : attachSkips proto socketRes connectOk c = false := by
        simpa using hskip
      have hfd : ¬ socketRes c < 0 := by
        intro hlt
        simp [attachSkips, hlt] at hskipf
      have hloop : attachLoop proto socketRes connectOk (c :: rest) cur
          = (some c, c :: rest, socketRes c, [c]) := by
        by_cases hproto : proto = Protocol.TCP
        · have hcc : connectOk c = true := by
            cases hcb : connectOk c
            · simp [attachSkips, hproto, hcb] at hskipf
            · rfl
          simp [attachLoop, hfd, hproto, hcc]
        · simp [attachLoop, hfd, hproto]
      rw [List.takeWhile_cons_of_neg (by simp [hskipf]),
        List.dropWhile_cons_of_neg (by simp [hskipf]), hloop]
      refine ⟨rfl, fun h => by simp at h, fun d t h => ?_⟩
      obtain ⟨h1, h2⟩ := List.cons.inj h
      subst h1
      subst h2
      exact ⟨rfl, rfl, rfl⟩

/-- Claim C6: for every attach with non-null host and service and a
successful resolution, candidates are tried in resolver order: the
attempted candidates are exactly the failing ones before the first usable
candidate plus that candidate itself; when every candidate fails the call
reports 1 with all resolution state released; when a first usable (and,
for TCP, connected) candidate exists, the call reports 0, the remaining
address list starts at that winner (the failed ones having been deleted),
and the client socket is the winner's descriptor. -/
theorem c6_attach_iteration (proto : Protocol) (hv sv : Nat)
    (resolved : List AddrInfo) (socketRes : AddrInfo → Int)
    (connectOk : AddrInfo → Bool) :
    (client_attach proto (some hv) (some sv) true resolved socketRes connectOk).socketCalls
        = resolved.takeWhile (attachSkips proto socketRes connectOk)
          ++ (resolved.dropWhile (attachSkips proto socketRes connectOk)).take 1
    ∧ (resolved.dropWhile (attachSkips proto socketRes connectOk) = [] →
        (client_attach proto (some hv) (some sv) true resolved socketRes connectOk).ret = 1
        ∧ (client_attach proto (some hv) (some sv) true resolved socketRes connectOk).m_address_info
            = none)
    ∧ (∀ c t, resolved.dropWhile (attachSkips proto socketRes connectOk) = c :: t →
        (client_attach proto (some hv) (some sv) true resolved socketRes connectOk).ret = 0
        ∧ (client_attach proto (some hv) (some sv) true resolved socketRes connectOk).m_address_info
            = some (c :: t)
        ∧ (client_attach proto (some hv) (some sv) true resolved socketRes connectOk).socket0
            = socketRes c) := by
  obtain ⟨h1, h2, h3⟩ := attachLoop_spec proto socketRes connectOk resolved UNUSED
  refine ⟨?_, fun h => ?_, fun c t h => ?_⟩
  · cases hw : (attachLoop proto socketRes connectOk resolved UNUSED).1 <;>
      simp [client_attach, hw, h1]
  · obtain ⟨ha, hb⟩ := h2 h
    simp [client_attach, ha]
  · obtain ⟨ha, hb, hc⟩ := h3 c t h
    simp [client_attach, ha, hb, hc]

/-- Witness for C6 with three concrete TCP candidates: the first fails
socket creation, the second fails connect, the third succeeds, so the
attempted trace is all three, the winner is the third, the surviving
address list is exactly the winner, and the client socket is the winner's
descriptor 2. -/
theorem c6_attach_iteration_witness :
    ((client_attach Protocol.TCP (some 1) (some 9999) true
        [{ ai_family := 0 }, { ai_family := 1 }, { ai_family := 2 }]
        (fun c => if c.ai_family = 0 then -1 else Int.ofNat c.ai_family)
        (fun c => decide (c.ai_family ≠ 1))).ret = 0
      ∧ (client_attach Protocol.TCP (some 1) (some 9999) true
        [{ ai_family := 0 }, { ai_family := 1 }, { ai_family := 2 }]
        (fun c => if c.ai_family = 0 then -1 else Int.ofNat c.ai_family)
        (fun c => decide (c.ai_family ≠ 1))).m_address_info
          = some [{ ai_family := 2 }]
      ∧ (client_attach Protocol.TCP (some 1) (some 9999) true
        [{ ai_family := 0 }, { ai_family := 1 }, { ai_family := 2 }]
        (fun c => if c.ai_family = 0 then -1 else Int.ofNat c.ai_family)
        (fun c => decide (c.ai_family ≠ 1))).socket0
          = (fun (c : AddrInfo) => if c.ai_family = 0 then -1 else Int.ofNat c.ai_family)
              { ai_family := 2 })
    ∧ (client_attach Protocol.TCP (some 1) (some 9999) true
        [{ ai_family := 0 }, { ai_family := 1 }, { ai_family := 2 }]
        (fun c => if c.ai_family = 0 then -1 else Int.ofNat c.ai_family)
        (fun c => decide (c.ai_family ≠ 1))).socketCalls
          = [{ ai_family := 0 }, { ai_family := 1 }, { ai_family := 2 }] := by
  refine ⟨(c6_attach_iteration Protocol.TCP 1 9999
      [{ ai_family := 0 }, { ai_family := 1 }, { ai_family := 2 }]
      (fun c => if c.ai_family = 0 then -1 else Int.ofNat c.ai_family)
      (fun c => decide (c.ai_family ≠ 1))).2.2 { ai_family := 2 } [] (by decide), ?_⟩
  have h := (c6_attach_iteration Protocol.TCP 1 9999
      [{ ai_family := 0 }, { ai_family := 1 }, { ai_family := 2 }]
      (fun c => if c.ai_family = 0 then -1 else Int.ofNat c.ai_family)
      (fun c => decide (c.ai_family ≠ 1))).1
  rw [h]
  decide

/-- Claim C9: attach with a null host or a null service returns the error
code 1 before performing any resolution call or any socket creation. -/
theorem c9_attach_null_args (proto : Protocol) (host service : Option Nat)
    (resolveOk : Bool) (resolved : List AddrInfo)
    (socketRes : AddrInfo → Int) (connectOk : AddrInfo → Bool)
    (h : host = none ∨ service = none) :
    (client_attach proto host service resolveOk resolved socketRes connectOk).ret = 1
    ∧ (client_attach proto host service resolveOk resolved socketRes connectOk).resolutionCalled
        = false
    ∧ (client_attach proto host service resolveOk resolved socketRes connectOk).socketCalls
        = [] := by
  rcases h with h | h
  · subst h
    simp [client_attach]
  · subst h
    cases host <;> simp [client_attach]

/-- Witness for C9 in both directions at concrete arguments: a null host
with service 9999, and host 7 with a null service. -/
theorem c9_attach_null_args_witness :
    ((client_attach Protocol.TCP none (some 9999) true []
        (fun _ => -1) (fun _ => true)).ret = 1
      ∧ (client_attach Protocol.TCP none (some 9999) true []
        (fun _ => -1) (fun _ => true)).resolutionCalled = false
      ∧ (client_attach Protocol.TCP none (some 9999) true []
        (fun _ => -1) (fun _ => true)).socketCalls = [])
    ∧ ((client_attach Protocol.UDP (some 7) none true []
        (fun _ => -1) (fun _ => true)).ret = 1
      ∧ (client_attach Protocol.UDP (some 7) none true []
        (fun _ => -1) (fun _ => true)).resolutionCalled = false
      ∧ (client_attach Protocol.UDP (some 7) none true []
        (fun _ => -1) (fun _ => true)).socketCalls = []) :=
  ⟨c9_attach_null_args Protocol.TCP none (some 9999) true []
      (fun _ => -1) (fun _ => true) (Or.inl rfl),
    c9_attach_null_args Protocol.UDP (some 7) none true []
      (fun _ => -1) (fun _ => true) (Or.inr rfl)⟩

/-- Outcome of Server::start: returned code, the surviving resolved address
list, the created socket table contents, and the descriptors successfully
registered with the readiness facility. -/
structure StartOut where
  ret : Int
  m_address_info : List AddrInfo
  sockets : List Int
  registered : List Int
deriving DecidableEq, Repr

/-- The socket-creation loop of Server::start (libiris.cc 710-739): for
each candidate, create a socket (socketRes; negative means failure), bind
it (bindOk), and for TCP also listen (listenOk); a candidate failing any of
these has its socket closed (when open), is deleted from the list, and the
loop continues with the next candidate — it does not stop at the first
success.  Returns the surviving candidates and the created sockets, one
per survivor. -/
def serverCreateLoop (proto : Protocol) (socketRes : AddrInfo → Int)
    (bindOk listenOk : AddrInfo → Bool) : List AddrInfo → List AddrInfo × List Int
  | [] => ([], [])
  | c :: rest =>
    let fd := socketRes c
    if fd < 0 then serverCreateLoop proto socketRes bindOk listenOk rest
    else if !(bindOk c) then serverCreateLoop proto socketRes bindOk listenOk rest
    else if proto = Protocol.TCP && !(listenOk c) then
      serverCreateLoop proto socketRes bindOk listenOk rest
    else
      let t := serverCreateLoop proto socketRes bindOk listenOk rest
      (c :: t.1, fd :: t.2)

/-- Server::start (libiris.cc 651-775).  service null or, for TCP, a
non-positive backlog fail the validation; a getaddrinfo failure (resolveOk
false) also returns 1.  Otherwise every candidate's canonical name is
nulled (set_canon_null), the creation loop runs over all candidates, and if
no socket was created the call fails; otherwise each created socket is
registered with the epoll facility (epollAddOk; failures are skipped) and
the call succeeds exactly when at least one registration succeeded. -/
def server_start (proto : Protocol) (host service : Option Nat) (backlog : Int)
    (resolveOk : Bool) (resolved : List AddrInfo)
    (socketRes : AddrInfo → Int) (bindOk listenOk : AddrInfo → Bool)
    (epollAddOk : Int → Bool) : StartOut :=
  if service.isNone then { ret := 1, m_address_info := [], sockets := [], registered := [] }
  else if proto = Protocol.TCP && decide (backlog ≤ 0) then
    { ret := 1, m_address_info := [], sockets := [], registered := [] }
  else if !resolveOk then
    { ret := 1, m_address_info := [], sockets := [], registered := [] }
  else
    let cands := resolved.map fun c => { c with ai_canonname := none }
    let t := serverCreateLoop proto socketRes bindOk listenOk cands
    if t.2 = [] then { ret := 1, m_address_info := t.1, sockets := t.2, registered := [] }
    else
      let reg := t.2.filter epollAddOk
      { ret := if reg = [] then 1 else 0, m_address_info := t.1, sockets := t.2
        registered := reg }

/-- The condition under which the start loop keeps a candidate: its socket
creation succeeds, its bind succeeds, and under TCP its listen succeeds. -/
def serverKeeps (proto : Protocol) (socketRes : AddrInfo → Int)
    (bindOk listenOk : AddrInfo → Bool) : AddrInfo → Bool :=
  fun c => !(decide (socketRes c < 0)) && bindOk c
    && !(decide (proto = Protocol.TCP) && !(listenOk c))

lemma serverCreateLoop_spec (proto : Protocol) (socketRes : AddrInfo → Int)
    (bindOk listenOk : AddrInfo → Bool) :
    ∀ l : List AddrInfo,
      serverCreateLoop proto socketRes bindOk listenOk l
        = (l.filter (serverKeeps proto socketRes bindOk listenOk),
           (l.filter (serverKeeps proto socketRes bindOk listenOk)).map socketRes) := by
  intro l
  induction l with
  | nil => simp [serverCreateLoop]
  | cons c rest ih =>
    by_cases hfd : socketRes c < 0
    · simp [serverCreateLoop, serverKeeps, hfd, ih]
    · by_cases hbind : bindOk c = true
      · by_cases htl : (decide (proto = Protocol.TCP) && !(listenOk c)) = true
        · simp [serverCreateLoop, serverKeeps, hfd, hbind, htl, ih]
        · have hneg : (decide (proto = Protocol.TCP) && !(listenOk c)) = false := by
            simpa using htl
          simp [serverCreateLoop, serverKeeps, hfd, hbind, hneg, ih]
      · have hbf : bindOk c = false := by simpa using hbind
        simp [serverCreateLoop, serverKeeps, hfd, hbf, ih]

/-- Claim C5: for every call to Server.start that passes validation (a
service is given and, for TCP, the backlog is positive) with a successful
resolution, a socket is created for every surviving candidate — the
survivors being exactly the candidates (canonical names nulled) that pass
socket creation, bind and, for TCP, listen, with no stop at the first
success — the failing candidates are deleted from the list, and the call
returns 0 exactly when at least one created socket was registered with the
readiness facility. -/
theorem c5_start_spec (proto : Protocol) (host : Option Nat) (sv : Nat)
    (backlog : Int) (resolved : List AddrInfo) (socketRes : AddrInfo → Int)
    (bindOk listenOk : AddrInfo → Bool) (epollAddOk : Int → Bool)
    (hb : proto = Protocol.TCP → 0 < backlog) :
    (server_start proto host (some sv) backlog true resolved socketRes
        bindOk listenOk epollAddOk).m_address_info
      = ((resolved.map fun c => { c with ai_canonname := none }).filter
          (serverKeeps proto socketRes bindOk listenOk))
    ∧ (server_start proto host (some sv) backlog true resolved socketRes
        bindOk listenOk epollAddOk).sockets
      = (((resolved.map fun c => { c with ai_canonname := none }).filter
          (serverKeeps proto socketRes bindOk listenOk)).map socketRes)
    ∧ (server_start proto host (some sv) backlog true resolved socketRes
        bindOk listenOk epollAddOk).registered
      = ((server_start proto host (some sv) backlog true resolved socketRes
          bindOk listenOk epollAddOk).sockets).filter epollAddOk
    ∧ ((server_start proto host (some sv) backlog true resolved socketRes
        bindOk listenOk epollAddOk).ret = 0
      ↔ (server_start proto host (some sv) backlog true resolved socketRes
          bindOk listenOk epollAddOk).registered ≠ []) := by
  have hval : (proto = Protocol.TCP && decide (backlog ≤ 0)) = false := by
    by_cases hp : proto = Protocol.TCP
    · simp [hp, not_le.mpr (hb hp)]
    · simp [hp]
  have hloop := serverCreateLoop_spec proto socketRes bindOk listenOk
    (resolved.map fun c => { c with ai_canonname := none })
  by_cases hempty : ((resolved.map fun c => { c with ai_canonname := none }).filter
      (serverKeeps proto socketRes bindOk listenOk)).map socketRes = []
  · refine ⟨?_, ?_, ?_, ?_⟩ <;>
      simp [server_start, hval, hloop, hempty]
  · by_cases hreg : (((resolved.map fun c => { c with ai_canonname := none }).filter
        (serverKeeps proto socketRes bindOk listenOk)).map socketRes).filter epollAddOk = []
    · refine ⟨?_, ?_, ?_, ?_⟩ <;>
        simp [server_start, hval, hloop, hempty, hreg]
    · refine ⟨?_, ?_, ?_, ?_⟩ <;>
        simp [server_start, hval, hloop, hempty, hreg]

/-- Witness for C5 with a TCP server over three concrete candidates: the
first fails bind, the second survives, the third fails listen; one socket
is created for the single survivor, it registers successfully, and the
call reports 0. -/
theorem c5_start_spec_witness :
    (server_start Protocol.TCP none (some 9999) 10 true
        [{ ai_family := 0 }, { ai_family := 1 }, { ai_family := 2 }]
        (fun c => Int.ofNat c.ai_family)
        (fun c => decide (c.ai_family ≠ 0)) (fun c => decide (c.ai_family ≠ 2))
        (fun _ => true)).m_address_info
      = ((([{ ai_family := 0 }, { ai_family := 1 }, { ai_family := 2 }] : List AddrInfo).map
            fun c => { c with ai_canonname := none }).filter
          (serverKeeps Protocol.TCP (fun c => Int.ofNat c.ai_family)
            (fun c => decide (c.ai_family ≠ 0)) (fun c => decide (c.ai_family ≠ 2))))
    ∧ (server_start Protocol.TCP none (some 9999) 10 true
        [{ ai_family := 0 }, { ai_family := 1 }, { ai_family := 2 }]
        (fun c => Int.ofNat c.ai_family)
        (fun c => decide (c.ai_family ≠ 0)) (fun c => decide (c.ai_family ≠ 2))
        (fun _ => true)).sockets
      = (((([{ ai_family := 0 }, { ai_family := 1 }, { ai_family := 2 }] : List AddrInfo).map
            fun c => { c with ai_canonname := none }).filter
          (serverKeeps Protocol.TCP (fun c => Int.ofNat c.ai_family)
            (fun c => decide (c.ai_family ≠ 0)) (fun c => decide (c.ai_family ≠ 2)))).map
          (fun c => Int.ofNat c.ai_family))
    ∧ (server_start Protocol.TCP none (some 9999) 10 true
        [{ ai_family := 0 }, { ai_family := 1 }, { ai_family := 2 }]
        (fun c => Int.ofNat c.ai_family)
        (fun c => decide (c.ai_family ≠ 0)) (fun c => decide (c.ai_family ≠ 2))
        (fun _ => true)).registered
      = ((server_start Protocol.TCP none (some 9999) 10 true
          [{ ai_family := 0 }, { ai_family := 1 }, { ai_family := 2 }]
          (fun c => Int.ofNat c.ai_family)
          (fun c => decide (c.ai_family ≠ 0)) (fun c => decide (c.ai_family ≠ 2))
          (fun _ => true)).sockets).filter (fun _ => true)
    ∧ ((server_start Protocol.TCP none (some 9999) 10 true
        [{ ai_family := 0 }, { ai_family := 1 }, { ai_family := 2 }]
        (fun c => Int.ofNat c.ai_family)
        (fun c => decide (c.ai_family ≠ 0)) (fun c => decide (c.ai_family ≠ 2))
        (fun _ => true)).ret = 0
      ↔ (server_start Protocol.TCP none (some 9999) 10 true
          [{ ai_family := 0 }, { ai_family := 1 }, { ai_family := 2 }]
          (fun c => Int.ofNat c.ai_family)
          (fun c => decide (c.ai_family ≠ 0)) (fun c => decide (c.ai_family ≠ 2))
          (fun _ => true)).registered ≠ []) :=
  c5_start_spec Protocol.TCP none 9999 10
    [{ ai_family := 0 }, { ai_family := 1 }, { ai_family := 2 }]
    (fun c => Int.ofNat c.ai_family)
    (fun c => decide (c.ai_family ≠ 0)) (fun c => decide (c.ai_family ≠ 2))
    (fun _ => true) (fun _ => by norm_num)

/-- A queued UDP datagram: the sender's socket address (abstracted to a
numeric identifier) and the payload bytes. -/
structure Datagram where
  sender : Nat
  payload : List Nat
deriving DecidableEq, Repr

/-- Replace the queue associated with descriptor fd in the per-descriptor
datagram-queue map. -/
def osUpdate (os : List (Int × List Datagram)) (fd : Int) (q : List Datagram) :
    List (Int × List Datagram) :=
  os.map fun p => if p.1 = fd then (fd, q) else p

/-- The UDP branch of Server::get_client (libiris.cc 877-899), reached when
a readiness event fires on the listening socket srvSock.  The code calls
recvfrom with MSG_PEEK, which copies the sender address of the first queued
datagram without removing it; on a negative result the loop continues
(modelled as none — also the case of a descriptor with no queue).  On
success a fresh addrinfo node is allocated (only ai_next, ai_addr,
ai_addrlen and ai_canonname are assigned; the other malloc-fresh fields are
modelled by the structure defaults), attached to the out-parameter client
via set_address_info, and 0 is returned; the client's socket table is not
touched.  The queue map is returned unchanged — the datagram stays
queued. -/
def get_client_udp (srvSock : Int) (os : List (Int × List Datagram))
    (client : EndpointState) :
    Option (Int × EndpointState × List (Int × List Datagram)) :=
  match os.lookup srvSock with
  | none => none
  | some [] => none
  | some (d :: _) =>
    let node : AddrInfo :=
      { ai_addr := some d.sender, ai_addrlen := 128, ai_canonname := none }
    some (0, set_address_info client [node], os)

/-- The first socket table entry of an endpoint (m_sockets[0]); none models
the null-pointer or empty-table read. -/
def sock0 (c : EndpointState) : Option Int :=
  c.m_sockets.bind List.head?

/-- Endpoint::receive_timeout (libiris.cc 321-334) as observed through the
datagram-queue map: select on a descriptor that is not an open datagram
socket fails with -1; with an empty queue the zero timeout expires and 0 is
returned; with data queued it reports one ready descriptor. -/
def receive_timeoutM (sock : Int) (os : List (Int × List Datagram)) : Int :=
  match os.lookup sock with
  | none => -1
  | some [] => 0
  | some (_ :: _) => 1

/-- The UDP branch of Endpoint::receive_data (libiris.cc 283-302): the
target's m_sockets[0] is polled with receive_timeout; 0 means timeout
(return 0), -1 means error (return -1), otherwise recvfrom consumes the
first queued datagram and returns up to data_len of its bytes.  The result
carries the returned count, the bytes read and the updated queue map; none
models the read through an absent socket table. -/
def receive_data_udp (target : EndpointState) (data_len : Nat)
    (os : List (Int × List Datagram)) :
    Option (Int × List Nat × List (Int × List Datagram)) :=
  (sock0 target).map fun sock =>
    let time := receive_timeoutM sock os
    if time = 0 then (0, [], os)
    else if time = -1 then (-1, [], os)
    else
      match os.lookup sock with
      | some (d :: rest) =>
        (Int.ofNat (d.payload.take data_len).length, d.payload.take data_len,
          osUpdate os sock rest)
      | _ => (-1, [], os)

/-- Claim C4 (code bug, evaluation at the failing input): a UDP server
whose listening socket 4 has one queued datagram with payload [104, 105]
from sender 55.  get_client does peek non-consumingly (the queue map is
returned unchanged), attaches the synthesized sender-address record to the
fresh client, and returns 0 — but the subsequent receive on that returned
client returns -1 rather than the datagram's bytes, because the UDP branch
never sets the client's socket: m_sockets[0] is still UNUSED (-999), not an
open descriptor, and the readiness poll on it fails. -/
theorem c4_udp_get_client_eval :
    get_client_udp 4 [(4, [{ sender := 55, payload := [104, 105] }])]
        (clientNew Protocol.UDP)
      = some (0,
          { m_protocol := Protocol.UDP
            m_type := EType.ClientEndpoint
            m_sockets := some [UNUSED]
            m_sockets_len := 1
            m_address_info := some [{ ai_addr := some 55, ai_addrlen := 128, ai_canonname := none }] },
          [(4, [{ sender := 55, payload := [104, 105] }])])
    ∧ receive_data_udp
        { m_protocol := Protocol.UDP
          m_type := EType.ClientEndpoint
          m_sockets := some [UNUSED]
          m_sockets_len := 1
          m_address_info := some [{ ai_addr := some 55, ai_addrlen := 128, ai_canonname := none }] }
        100 [(4, [{ sender := 55, payload := [104, 105] }])]
      = some (-1, [], [(4, [{ sender := 55, payload := [104, 105] }])])
    ∧ receive_data_udp
        { m_protocol := Protocol.UDP
          m_type := EType.ClientEndpoint
          m_sockets := some [4]
          m_sockets_len := 1
          m_address_info := some [{ ai_addr := some 55, ai_addrlen := 128, ai_canonname := none }] }
        100 [(4, [{ sender := 55, payload := [104, 105] }])]
      = some (2, [104, 105], [(4, [])]) := by
  refine ⟨rfl, rfl, rfl⟩

/-- Claim C10: for every Client whose socket table is allocated (which holds
for every constructed Client and after every set_socket call), get_socket
returns the sentinel UNUSED (-999) regardless of the descriptor stored in
the table; the branch that reads the table is taken only when the table
pointer is null. -/
theorem c10_get_socket_unused (c : EndpointState) (l : List Int) (s : Int)
    (h : c.m_sockets = some l) :
    get_socket c = some UNUSED
    ∧ get_socket (set_socket c s) = some UNUSED
    ∧ get_socket (clientNew Protocol.TCP) = some UNUSED
    ∧ (∀ d : EndpointState, d.m_sockets = none → get_socket d = none) := by
  refine ⟨by simp [get_socket, h], ?_, rfl, ?_⟩
  · cases hc : c.m_sockets <;> simp [get_socket, set_socket, hc]
  · intro d hd
    simp [get_socket, hd]

/-- Witness for C10 at a concrete client: the freshly constructed TCP client
has an allocated table, and get_socket yields UNUSED on it, after set_socket
of descriptor 5, and on the fresh constructor state. -/
theorem c10_get_socket_unused_witness :
    get_socket (clientNew Protocol.TCP) = some UNUSED
    ∧ get_socket (set_socket (clientNew Protocol.TCP) 5) = some UNUSED
    ∧ get_socket (clientNew Protocol.TCP) = some UNUSED
    ∧ (∀ d : EndpointState, d.m_sockets = none → get_socket d = none) :=
  c10_get_socket_unused (clientNew Protocol.TCP) [UNUSED] 5 rfl

end LibIris
